import Mathlib

/-!
Verification of the session/task journaling and event-recording core of the
agentic cost optimizer.  Strings from the Python source are modelled as
`List Char`; DynamoDB tables as association lists; wall-clock readings,
generated UUIDs and store outcomes are explicit parameters.
-/

set_option maxRecDepth 4000

namespace CostOpt

/-! ## Event status validation (src/shared/event_validation.py) -/

/-- The character class `[A-Za-z0-9_-]` used by `PHASE_NAME_PATTERN` and by the
capture group of `DYNAMIC_STATUS_PATTERN`. -/
def isSafeChar (c : Char) : Bool :=
  (('A' ≤ c && c ≤ 'Z') || ('a' ≤ c && c ≤ 'z') || ('0' ≤ c && c ≤ '9')
    || c = '_' || c = '-')

/-- `PHASE_NAME_PATTERN = ^[A-Za-z0-9_-]+$` as a predicate on a phase name. -/
def phaseNamePattern (p : List Char) : Bool :=
  !p.isEmpty && p.all isSafeChar

def MAX_PHASE_NAME_LENGTH : Nat := 50

/-- The literal `TASK_` heading `DYNAMIC_STATUS_PATTERN`. -/
def litTASK : List Char := ['T', 'A', 'S', 'K', '_']

/-- The literal `_STARTED` (underscore plus the first suffix alternative). -/
def litSTARTED : List Char := ['_', 'S', 'T', 'A', 'R', 'T', 'E', 'D']

/-- The literal `_COMPLETED`. -/
def litCOMPLETED : List Char := ['_', 'C', 'O', 'M', 'P', 'L', 'E', 'T', 'E', 'D']

/-- The literal `_FAILED`. -/
def litFAILED : List Char := ['_', 'F', 'A', 'I', 'L', 'E', 'D']

/-- Consume the literal `pat` from the front of `l`; return the remainder. -/
def remLit : List Char → List Char → Option (List Char)
  | [], r => some r
  | _ :: _, [] => none
  | c :: cs, d :: ds => if d = c then remLit cs ds else none

/-- Split `r` as `p ++ t` for the literal tail `t`, returning `p`. -/
def splitTail (t r : List Char) : Option (List Char) :=
  (remLit t.reverse r.reverse).map List.reverse

/-- One backtracking step of the regex engine: take the split of `r` ending in
the literal `t` and check the capture group `([A-Za-z0-9_-]+)` against the
part before `t`. -/
def tryCapture (t r : List Char) : Option (List Char) :=
  match splitTail t r with
  | some p => if phaseNamePattern p then some p else none
  | none => none

/-- `DYNAMIC_STATUS_PATTERN.match(s)`, returning the captured phase name.
The pattern is `^TASK_([A-Za-z0-9_-]+)_(STARTED|COMPLETED|FAILED)$`; the
greedy capture group corresponds to preferring the shortest trailing
suffix literal, so the candidates are tried in order of length. -/
def dynamicStatusMatch (s : List Char) : Option (List Char) :=
  match remLit litTASK s with
  | none => none
  | some r =>
    match tryCapture litFAILED r with
    | some p => some p
    | none =>
      match tryCapture litSTARTED r with
      | some p => some p
      | none => tryCapture litCOMPLETED r

/-- The four ways `validate_event_status` can finish: return normally, or
raise one of its three `ValueError`s. -/
inductive ValidationOutcome
  | ok
  | errPattern
  | errTooLong
  | errBadChars
  deriving DecidableEq

/-- `validate_event_status(status, valid_predefined_statuses)`.  The fast path
accepts members of the predefined set; otherwise the dynamic pattern is
matched, the extracted phase name is length-checked and character-checked. -/
def validate_event_status (status : List Char) (validPredefined : List (List Char)) :
    ValidationOutcome :=
  if validPredefined.contains status then .ok
  else
    match dynamicStatusMatch status with
    | none => .errPattern
    | some phase_name =>
      if phase_name.length > MAX_PHASE_NAME_LENGTH then .errTooLong
      else if !phaseNamePattern phase_name then .errBadChars
      else .ok

example : dynamicStatusMatch "TASK_DISCOVERY_STARTED".data = some "DISCOVERY".data := by decide
example : dynamicStatusMatch "TASK_A_CANCELLED".data = none := by decide
example : dynamicStatusMatch "TASK__STARTED".data = none := by decide
example : dynamicStatusMatch "TASK_A_COMPLETED_STARTED".data = some "A_COMPLETED".data := by decide
example : validate_event_status "TASK_X-1_FAILED".data [] = .ok := by decide
example : validate_event_status "TASK_a b_STARTED".data [] = .errPattern := by decide

/-! ## DynamoDB table model

A table is an association list from composite key `(PK, SK)` to item.
`condPut` models `put_item` with
`ConditionExpression="attribute_not_exists(PK) AND attribute_not_exists(SK)"`;
`plainPut` models an unconditional `put_item`, which replaces any item that
already carries the same composite key. -/

abbrev DynamoKey := List Char × List Char

abbrev DynamoTable (α : Type) := List (DynamoKey × α)

def hasKey {α : Type} (t : DynamoTable α) (k : DynamoKey) : Bool :=
  t.any fun e => decide (e.1 = k)

def condPut {α : Type} (t : DynamoTable α) (k : DynamoKey) (it : α) :
    Except Unit (DynamoTable α) :=
  if hasKey t k then .error () else .ok ((k, it) :: t)

def plainPut {α : Type} (t : DynamoTable α) (k : DynamoKey) (it : α) :
    DynamoTable α :=
  (k, it) :: t.filter fun e => !decide (e.1 = k)

/-- Number of items stored under an exact composite key. -/
def countKey {α : Type} (t : DynamoTable α) (k : DynamoKey) : Nat :=
  (t.filter fun e => decide (e.1 = k)).length

/-- Number of items stored under a partition key. -/
def countPK {α : Type} (t : DynamoTable α) (pk : List Char) : Nat :=
  (t.filter fun e => decide (e.1.1 = pk)).length

/-! ## Event recorder (src/shared/event_recorder.py) -/

/-- The `EventStatus` constants (src/shared/event_statuses.py). -/
def SESSION_INITIATED : List Char := "SESSION_INITIATED".data
def AGENT_INVOCATION_STARTED : List Char := "AGENT_INVOCATION_STARTED".data
def AGENT_INVOCATION_SUCCEEDED : List Char := "AGENT_INVOCATION_SUCCEEDED".data
def AGENT_INVOCATION_FAILED : List Char := "AGENT_INVOCATION_FAILED".data
def AGENT_RUNTIME_INVOKE_STARTED : List Char := "AGENT_RUNTIME_INVOKE_STARTED".data
def AGENT_RUNTIME_INVOKE_FAILED : List Char := "AGENT_RUNTIME_INVOKE_FAILED".data
def AGENT_BACKGROUND_TASK_STARTED : List Char := "AGENT_BACKGROUND_TASK_STARTED".data
def AGENT_BACKGROUND_TASK_COMPLETED : List Char := "AGENT_BACKGROUND_TASK_COMPLETED".data
def AGENT_BACKGROUND_TASK_FAILED : List Char := "AGENT_BACKGROUND_TASK_FAILED".data

/-- The `valid_statuses` set built inside `record_event`. -/
def RECORD_EVENT_VALID_STATUSES : List (List Char) := [
  SESSION_INITIATED,
  AGENT_INVOCATION_STARTED,
  AGENT_INVOCATION_SUCCEEDED,
  AGENT_INVOCATION_FAILED,
  AGENT_RUNTIME_INVOKE_STARTED,
  AGENT_RUNTIME_INVOKE_FAILED,
  AGENT_BACKGROUND_TASK_STARTED,
  AGENT_BACKGROUND_TASK_COMPLETED,
  AGENT_BACKGROUND_TASK_FAILED]

/-- The item shape written by `record_event`. -/
structure EventItem where
  PK : List Char
  SK : List Char
  sessionId : List Char
  eventId : List Char
  createdAt : List Char
  statusF : List Char
  ttlSeconds : Nat
  errorMessage : Option (List Char)
  deriving DecidableEq

/-- The ways `record_event` can raise. -/
inductive RecordEventError
  | emptySessionId
  | emptyTableName
  | invalidStatus
  | storeError
  deriving DecidableEq

/-- `record_event(session_id, status, table_name, ttl_days, error_message,
region_name)`.  The current UTC instant (`nowEpoch` seconds, its ISO string
`timestamp`) and the freshly generated `uuid4` (`event_id`) are explicit
inputs; `table` is the DynamoDB table.  The conditional `put_item` failure is
re-raised by the `except` block, so it surfaces as `storeError`. -/
def record_event (session_id status table_name : List Char) (ttl_days : Nat)
    (error_message : Option (List Char)) (nowEpoch : Nat)
    (timestamp event_id : List Char) (table : DynamoTable EventItem) :
    Except RecordEventError (DynamoTable EventItem) :=
  if session_id.isEmpty then .error .emptySessionId
  else if table_name.isEmpty then .error .emptyTableName
  else if !(RECORD_EVENT_VALID_STATUSES.contains status) then .error .invalidStatus
  else
    let pk := "SESSION#".data ++ session_id
    let sk := "EVENT#".data ++ timestamp ++ ['#'] ++ event_id
    let item : EventItem :=
      { PK := pk, SK := sk, sessionId := session_id, eventId := event_id,
        createdAt := timestamp, statusF := status,
        ttlSeconds := nowEpoch + ttl_days * 24 * 60 * 60,
        errorMessage := error_message }
    match condPut table (pk, sk) item with
    | .error _ => .error .storeError
    | .ok t => .ok t

/-! ## Session metadata recorder (src/shared/record_metadata.py) -/

/-- The item shape written by `record_metadata`. -/
structure MetadataItem where
  PK : List Char
  SK : List Char
  sessionId : List Char
  createdAt : List Char
  ttlSeconds : Nat
  deriving DecidableEq

inductive RecordMetadataError
  | emptySessionId
  | emptyTableName
  deriving DecidableEq

/-- `record_metadata(session_id, table_name, ttl_days, region_name)`.  The
write is an unconditional `put_item` with sort key `METADATA#<timestamp>`;
store failures inside the `try` are logged and swallowed, so the only raises
are the two input validations. -/
def record_metadata (session_id table_name : List Char) (ttl_days : Nat)
    (nowEpoch : Nat) (timestamp : List Char) (table : DynamoTable MetadataItem) :
    Except RecordMetadataError (DynamoTable MetadataItem) :=
  if session_id.isEmpty then .error .emptySessionId
  else if table_name.isEmpty then .error .emptyTableName
  else
    let pk := "SESSION#".data ++ session_id
    let sk := "METADATA#".data ++ timestamp
    .ok (plainPut table (pk, sk)
      { PK := pk, SK := sk, sessionId := session_id, createdAt := timestamp,
        ttlSeconds := nowEpoch + ttl_days * 24 * 60 * 60 })

example :
    record_event "s1".data "TASK_DISCOVERY_STARTED".data "tbl".data 90 none 0
      "2025T".data "id1".data [] = .error .invalidStatus := by rfl

/-! ## Journal tool (src/tools/journal.py)

The tool context's `invocation_state.get("session_id")` is `ctxSession`, the
`JOURNAL_TABLE_NAME` environment variable is `table_name` (empty when unset),
the current UTC instant is `now`/`nowEpoch`, `_calculate_duration` at the
current instant is the oracle `calcDur`, and the outcome of each DynamoDB
call is an explicit `Except` parameter carrying a `ClientError`s
`(code, message)` on failure. -/

/-- Python truthiness of an optional string. -/
def isFalsy : Option (List Char) → Bool
  | none => true
  | some s => s.isEmpty

inductive TaskStatus
  | COMPLETED | FAILED | CANCELLED | SKIPPED
  deriving DecidableEq

def TaskStatus.value : TaskStatus → List Char
  | .COMPLETED => "COMPLETED".data
  | .FAILED => "FAILED".data
  | .CANCELLED => "CANCELLED".data
  | .SKIPPED => "SKIPPED".data

/-- `TaskStatus(s)`: the enum lookup that raises `ValueError` on any other
string. -/
def parseTaskStatus (s : List Char) : Option TaskStatus :=
  if s = "COMPLETED".data then some .COMPLETED
  else if s = "FAILED".data then some .FAILED
  else if s = "CANCELLED".data then some .CANCELLED
  else if s = "SKIPPED".data then some .SKIPPED
  else none

inductive SessionStatus
  | COMPLETED | FAILED
  deriving DecidableEq

def SessionStatus.value : SessionStatus → List Char
  | .COMPLETED => "COMPLETED".data
  | .FAILED => "FAILED".data

/-- `SessionStatus(s)`. -/
def parseSessionStatus (s : List Char) : Option SessionStatus :=
  if s = "COMPLETED".data then some .COMPLETED
  else if s = "FAILED".data then some .FAILED
  else none

/-- One row of the journal table, keyed by `(session_id, record_type)`.
Non-key attributes are optional because `update_item` upserts partial rows. -/
structure JournalItem where
  session_id : List Char
  record_type : List Char
  timestampF : Option (List Char)
  ttl : Option Nat
  statusF : Option (List Char)
  phase_name : Option (List Char)
  start_time : Option (List Char)
  end_time : Option (List Char)
  duration_seconds : Option Int
  error_message : Option (List Char)
  deriving DecidableEq

def emptyJournalItem (sid rt : List Char) : JournalItem :=
  { session_id := sid, record_type := rt, timestampF := none, ttl := none,
    statusF := none, phase_name := none, start_time := none, end_time := none,
    duration_seconds := none, error_message := none }

/-- Unconditional `put_item` on the journal table (overwrite by key). -/
def journalPut (store : List JournalItem) (it : JournalItem) : List JournalItem :=
  it :: store.filter fun o =>
    !(decide (o.session_id = it.session_id) && decide (o.record_type = it.record_type))

/-- The `SET`-expression of `_update_dynamodb_item`, applied to one row. -/
def applyTaskUpdate (it : JournalItem) (status end_time : List Char) (dur : Int)
    (err : Option (List Char)) : JournalItem :=
  { it with
    statusF := some status, end_time := some end_time,
    duration_seconds := some dur,
    error_message := if isFalsy err then it.error_message else err }

/-- `update_item`: updates the row with the given key, creating it (upsert)
when absent, as DynamoDB does. -/
def journalUpdate (store : List JournalItem) (sid rt status end_time : List Char)
    (dur : Int) (err : Option (List Char)) : List JournalItem :=
  if store.any (fun o => decide (o.session_id = sid) && decide (o.record_type = rt)) then
    store.map fun o =>
      if decide (o.session_id = sid) && decide (o.record_type = rt) then
        applyTaskUpdate o status end_time dur err
      else o
  else
    applyTaskUpdate (emptyJournalItem sid rt) status end_time dur err :: store

/-- An entry of `_session_cache["tasks"]`. -/
structure CacheTaskInfo where
  record_type : List Char
  start_time : List Char
  session_id : List Char
  deriving DecidableEq

/-- The module-level `_session_cache`. -/
structure SessionCache where
  session_id : Option (List Char)
  start_time : Option (List Char)
  tasks : List (List Char × CacheTaskInfo)
  deriving DecidableEq

def lookupAssoc (l : List (List Char × CacheTaskInfo)) (k : List Char) :
    Option CacheTaskInfo :=
  match l.find? (fun e => decide (e.1 = k)) with
  | some e => some e.2
  | none => none

/-- Python dict assignment `_session_cache["tasks"][phase] = info`. -/
def insertAssoc (l : List (List Char × CacheTaskInfo)) (k : List Char)
    (v : CacheTaskInfo) : List (List Char × CacheTaskInfo) :=
  (k, v) :: l.filter fun e => !decide (e.1 = k)

/-- The `error_type` tags used by the journal tool's error payloads. -/
inductive JErrorType
  | NO_SESSION
  | TASK_NOT_FOUND
  deriving DecidableEq

/-- The dictionary the journal tool returns.  Absent dict keys are `none`;
`timestamp` is present on every path. -/
structure JournalResult where
  success : Bool
  error : Option (List Char)
  error_type : Option JErrorType
  session_id : Option (List Char)
  phase_name : Option (List Char)
  statusF : Option (List Char)
  start_time : Option (List Char)
  duration_seconds : Option Int
  timestamp : List Char
  deriving DecidableEq

/-- `_create_error_response(error_message)` without additional context. -/
def errorResponse (now msg : List Char) : JournalResult :=
  { success := false, error := some msg, error_type := none, session_id := none,
    phase_name := none, statusF := none, start_time := none,
    duration_seconds := none, timestamp := now }

/-- `_handle_dynamodb_error(operation, error, context)`; the message is
`Failed to {operation}: {code}: {message}`. -/
def dynamoError (now op code msg : List Char) : JournalResult :=
  errorResponse now ("Failed to ".data ++ op ++ ": ".data ++ code ++ ": ".data ++ msg)

/-- `_get_session_id(tool_context)`: the invocation state's id, or the cached
one when the former is missing or empty. -/
def getSessionId (ctxSession : Option (List Char)) (cache : SessionCache) :
    Option (List Char) :=
  match ctxSession with
  | some s => if s.isEmpty then cache.session_id else some s
  | none => cache.session_id

/-- `_start_session`. -/
def startSession (ctxSession : Option (List Char)) (cache : SessionCache)
    (store : List JournalItem) (table_name now : List Char) (nowEpoch : Nat)
    (putOutcome : Except (List Char × List Char) Unit) :
    JournalResult × SessionCache × List JournalItem :=
  if isFalsy ctxSession then
    (errorResponse now "session_id not found in invocation state".data, cache, store)
  else
    let sid := ctxSession.getD []
    if table_name.isEmpty then
      (errorResponse now "JOURNAL_TABLE_NAME not set".data, cache, store)
    else
      let cache' : SessionCache :=
        { session_id := some sid, start_time := some now, tasks := [] }
      match putOutcome with
      | .error (code, msg) =>
        ({ dynamoError now "create session".data code msg with session_id := some sid },
          cache', store)
      | .ok _ =>
        let item : JournalItem :=
          { emptyJournalItem sid "SESSION".data with
            timestampF := some now, ttl := some (nowEpoch + 30 * 24 * 60 * 60),
            statusF := some "STARTED".data, start_time := some now }
        ({ success := true, error := none, error_type := none,
           session_id := some sid, phase_name := none,
           statusF := some "STARTED".data, start_time := some now,
           duration_seconds := none, timestamp := now },
          cache', journalPut store item)

/-- `_start_task`.  The cache entry for the phase is written before the
`put_item` is attempted, and is kept when the store write fails. -/
def startTask (phase_name : List Char) (ctxSession : Option (List Char))
    (cache : SessionCache) (store : List JournalItem)
    (table_name now : List Char) (nowEpoch : Nat)
    (putOutcome : Except (List Char × List Char) Unit) :
    JournalResult × SessionCache × List JournalItem :=
  if phase_name.isEmpty then
    (errorResponse now "phase_name is required".data, cache, store)
  else
    let sid? := getSessionId ctxSession cache
    if isFalsy sid? then
      ({ errorResponse now "No active session found. Call start_session() first.".data
          with error_type := some .NO_SESSION }, cache, store)
    else
      let sid := sid?.getD []
      if table_name.isEmpty then
        (errorResponse now "JOURNAL_TABLE_NAME not set".data, cache, store)
      else
        let record_type := "TASK#".data ++ now
        let cache' : SessionCache :=
          { cache with
            tasks := insertAssoc cache.tasks phase_name ⟨record_type, now, sid⟩ }
        match putOutcome with
        | .error (code, msg) =>
          ({ dynamoError now "create task".data code msg with
             session_id := some sid, phase_name := some phase_name },
            cache', store)
        | .ok _ =>
          let item : JournalItem :=
            { emptyJournalItem sid record_type with
              timestampF := some now, ttl := some (nowEpoch + 30 * 24 * 60 * 60),
              statusF := some "IN_PROGRESS".data, phase_name := some phase_name,
              start_time := some now }
          ({ success := true, error := none, error_type := none,
             session_id := some sid, phase_name := some phase_name,
             statusF := some "IN_PROGRESS".data, start_time := none,
             duration_seconds := none, timestamp := now },
            cache', journalPut store item)

def leadsWith (pat l : List Char) : Bool :=
  (remLit pat l).isSome

/-- What `_find_task_by_phase` recovers from a queried row. -/
structure TaskRef where
  record_type : List Char
  start_time : List Char
  deriving DecidableEq

/-- `_find_task_by_phase(session_id, phase_name)`: query the session's rows
whose `record_type` begins with `TASK#` and return the first one whose
`phase_name` matches; `None` when the table name is unset, nothing matches,
or the query raises. -/
def findTaskByPhase (store : List JournalItem) (table_name sid phase : List Char) :
    Option TaskRef :=
  if table_name.isEmpty then none
  else
    match store.find? (fun it =>
        decide (it.session_id = sid) && leadsWith "TASK#".data it.record_type
          && decide (it.phase_name = some phase)) with
    | some it => some ⟨it.record_type, it.start_time.getD []⟩
    | none => none

/-- `_complete_task`. -/
def completeTask (phase_name : List Char) (ctxSession : Option (List Char))
    (status : TaskStatus) (error_message : Option (List Char))
    (cache : SessionCache) (store : List JournalItem)
    (table_name now : List Char) (calcDur : List Char → Int)
    (updateOutcome : Except (List Char × List Char) Unit) :
    JournalResult × List JournalItem :=
  if phase_name.isEmpty then
    (errorResponse now "phase_name is required".data, store)
  else
    let sid? := getSessionId ctxSession cache
    if isFalsy sid? then
      ({ errorResponse now "No active session found.".data
          with error_type := some .NO_SESSION }, store)
    else
      let sid := sid?.getD []
      let cached : Option TaskRef :=
        match lookupAssoc cache.tasks phase_name with
        | some ti => if ti.session_id = sid then some ⟨ti.record_type, ti.start_time⟩ else none
        | none => none
      let task_info : Option TaskRef :=
        match cached with
        | some r => some r
        | none => findTaskByPhase store table_name sid phase_name
      match task_info with
      | none =>
        ({ errorResponse now ("Task ".data ++ phase_name
              ++ " not found for session ".data ++ sid
              ++ ". Call start_task() first.".data) with
           error_type := some .TASK_NOT_FOUND, phase_name := some phase_name,
           session_id := some sid }, store)
      | some ref =>
        if table_name.isEmpty then
          (errorResponse now "JOURNAL_TABLE_NAME not set".data, store)
        else
          let duration := calcDur ref.start_time
          match updateOutcome with
          | .error (code, msg) =>
            ({ dynamoError now "update task".data code msg with
               session_id := some sid, phase_name := some phase_name }, store)
          | .ok _ =>
            ({ success := true, error := none, error_type := none,
               session_id := some sid, phase_name := some phase_name,
               statusF := some status.value, start_time := none,
               duration_seconds := some duration, timestamp := now },
              journalUpdate store sid ref.record_type status.value now duration
                error_message)

/-- `_complete_session`. -/
def completeSession (ctxSession : Option (List Char)) (status : SessionStatus)
    (error_message : Option (List Char)) (cache : SessionCache)
    (store : List JournalItem) (table_name now : List Char)
    (calcDur : List Char → Int)
    (updateOutcome : Except (List Char × List Char) Unit) :
    JournalResult × SessionCache × List JournalItem :=
  let sid? := getSessionId ctxSession cache
  if isFalsy sid? then
    ({ errorResponse now "No active session found.".data
        with error_type := some .NO_SESSION }, cache, store)
  else
    let sid := sid?.getD []
    let start? : Option (List Char) :=
      match cache.start_time with
      | some t => if t.isEmpty then none else some t
      | none =>
        if table_name.isEmpty then none
        else
          match store.find? (fun it => decide (it.session_id = sid)
              && decide (it.record_type = "SESSION".data)) with
          | some it => it.start_time
          | none => none
    if isFalsy start? then
      ({ errorResponse now ("Session start_time not found for session ".data ++ sid)
          with session_id := some sid }, cache, store)
    else
      let start_time := start?.getD []
      if table_name.isEmpty then
        (errorResponse now "JOURNAL_TABLE_NAME not set".data, cache, store)
      else
        let duration := calcDur start_time
        match updateOutcome with
        | .error (code, msg) =>
          ({ dynamoError now "update session".data code msg with
             session_id := some sid }, cache, store)
        | .ok _ =>
          ({ success := true, error := none, error_type := none,
             session_id := some sid, phase_name := none,
             statusF := some status.value, start_time := none,
             duration_seconds := some duration, timestamp := now },
            { session_id := none, start_time := none, tasks := [] },
            journalUpdate store sid "SESSION".data status.value now duration
              error_message)

/-- What a call of the `journal` tool function does: return a dictionary, or
let a `ValueError` from `TaskStatus(status)` / `SessionStatus(status)` escape
to the caller. -/
inductive JournalOutcome
  | ret (r : JournalResult)
  | raisesValueError (badStatus : List Char)
  deriving DecidableEq

/-- The `journal(action, tool_context, phase_name, status, error_message)`
dispatcher. -/
def journal (action : List Char) (phase_name status error_message : Option (List Char))
    (ctxSession : Option (List Char)) (cache : SessionCache)
    (store : List JournalItem) (table_name now : List Char) (nowEpoch : Nat)
    (calcDur : List Char → Int)
    (putOutcome updateOutcome : Except (List Char × List Char) Unit) :
    JournalOutcome × SessionCache × List JournalItem :=
  if action = "start_session".data then
    let (r, c, s) := startSession ctxSession cache store table_name now nowEpoch putOutcome
    (.ret r, c, s)
  else if action = "start_task".data then
    if isFalsy phase_name then
      (.ret (errorResponse now "phase_name is required for start_task action".data),
        cache, store)
    else
      let (r, c, s) := startTask (phase_name.getD []) ctxSession cache store
        table_name now nowEpoch putOutcome
      (.ret r, c, s)
  else if action = "complete_task".data then
    if isFalsy phase_name then
      (.ret (errorResponse now "phase_name is required for complete_task action".data),
        cache, store)
    else
      if isFalsy status then
        let (r, s) := completeTask (phase_name.getD []) ctxSession .COMPLETED
          error_message cache store table_name now calcDur updateOutcome
        (.ret r, cache, s)
      else
        match parseTaskStatus (status.getD []) with
        | none => (.raisesValueError (status.getD []), cache, store)
        | some ts =>
          let (r, s) := completeTask (phase_name.getD []) ctxSession ts
            error_message cache store table_name now calcDur updateOutcome
          (.ret r, cache, s)
  else if action = "complete_session".data then
    if isFalsy status then
      let (r, c, s) := completeSession ctxSession .COMPLETED error_message cache
        store table_name now calcDur updateOutcome
      (.ret r, c, s)
    else
      match parseSessionStatus (status.getD []) with
      | none => (.raisesValueError (status.getD []), cache, store)
      | some ss =>
        let (r, c, s) := completeSession ctxSession ss error_message cache store
          table_name now calcDur updateOutcome
        (.ret r, c, s)
  else
    (.ret (errorResponse now ("Unknown action: ".data ++ action)), cache, store)

/-! ## Agent entrypoint and background task (src/agents/main.py)

`record_event` calls are traced by their `(status, error_message)` arguments;
the store-level behaviour of `record_event` itself is modelled above.  The
outcome of each `invoke_async` agent stage and of `asyncio.create_task` are
explicit parameters. -/

/-- One `record_event` invocation: its `status` and `error_message`. -/
abbrev RecordedEvent := List Char × Option (List Char)

/-- How one agent stage (`invoke_async`) finishes: normally, or raising
`NoCredentialsError`, `ClientError` (with the response error code and
message), or any other exception (with its type name and message). -/
inductive StageOutcome
  | success
  | noCredentials (msg : List Char)
  | clientError (code msg : List Char)
  | generic (typeName msg : List Char)
  deriving DecidableEq

/-- Whether a string starts with the separator used by
`error_message.split(" - ", 1)`. -/
def sepHead (l : List Char) : Bool :=
  match l with
  | a :: b :: c :: _ => a == ' ' && b == '-' && c == ' '
  | _ => false

/-- `error_message.split(" - ", 1)[1]` when `" - " in error_message`, else
`none`. -/
def splitAfterSep : List Char → Option (List Char)
  | [] => none
  | c :: rest =>
    if sepHead (c :: rest) then some (rest.drop 2) else splitAfterSep rest

/-- The structured error dictionary built by `_handle_background_task_error`. -/
structure BgErrorDict where
  error : List Char
  session_id : List Char
  statusF : List Char
  error_code : Option (List Char)
  error_typeF : Option (List Char)
  error_messageF : List Char
  deriving DecidableEq

/-- `_handle_background_task_error(session_id, error_type, error_message,
error_code, error_type_name)`: records one
`AGENT_BACKGROUND_TASK_FAILED` event and returns the error dictionary. -/
def handleBackgroundTaskError (session_id error_type error_message : List Char)
    (error_code error_type_name : Option (List Char)) :
    BgErrorDict × RecordedEvent :=
  let ev : RecordedEvent := (AGENT_BACKGROUND_TASK_FAILED, some error_message)
  let msgField : List Char :=
    if (error_type = "ClientError".data ∨ error_type = "Exception".data) then
      match splitAfterSep error_message with
      | some t => t
      | none => error_message
    else error_message
  ({ error := error_type, session_id := session_id, statusF := "failed".data,
     error_code := if isFalsy error_code then none else error_code,
     error_typeF := if isFalsy error_type_name then none else error_type_name,
     error_messageF := msgField }, ev)

/-- What `background_task` hands back: the report agent's response on the
happy path, or the structured error dictionary. -/
inductive BgReturn
  | response
  | failure (d : BgErrorDict)
  deriving DecidableEq

/-- `background_task(user_message, session_id)`: run the analysis stage then
the report stage; on success record one COMPLETED event; on the first raised
exception record one FAILED event via `_handle_background_task_error` and
return its dictionary.  `stage1`/`stage2` are the outcomes of the two
`invoke_async` calls (the second only happens when the first succeeds). -/
def background_task (session_id : List Char) (stage1 stage2 : StageOutcome) :
    BgReturn × List RecordedEvent :=
  let raised : Option StageOutcome :=
    match stage1 with
    | .success => (match stage2 with | .success => none | o => some o)
    | o => some o
  match raised with
  | none => (.response, [(AGENT_BACKGROUND_TASK_COMPLETED, none)])
  | some .success => (.response, [(AGENT_BACKGROUND_TASK_COMPLETED, none)])
  | some (.noCredentials msg) =>
    let em := "NoCredentialsError - ".data ++ msg
    let (d, ev) := handleBackgroundTaskError session_id "NoCredentialsError".data em
      (some "NoCredentialsError".data) none
    (.failure d, [ev])
  | some (.clientError code msg) =>
    let em := code ++ " - ".data ++ msg
    let (d, ev) := handleBackgroundTaskError session_id "ClientError".data em
      (some code) none
    (.failure d, [ev])
  | some (.generic typeName msg) =>
    let em := typeName ++ " - ".data ++ msg
    let (d, ev) := handleBackgroundTaskError session_id "Exception".data em
      none (some typeName)
    (.failure d, [ev])

/-- The payload `invoke` returns. -/
structure InvokeResult where
  message : Option (List Char)
  session_id : List Char
  statusF : Option (List Char)
  error : Option (List Char)
  deriving DecidableEq

/-- `invoke(payload, context)`: record an `AGENT_RUNTIME_INVOKE_STARTED`
event, schedule the background task (`sched` is the outcome of
`asyncio.create_task`), and return immediately — the pipeline's own result is
not an input, matching the fire-and-forget contract.  On scheduling success a
second `AGENT_BACKGROUND_TASK_STARTED` event is recorded; on a raised
scheduling error an `AGENT_RUNTIME_INVOKE_FAILED` event is recorded
instead. -/
def invoke (_prompt : Option (List Char)) (session_id : List Char)
    (sched : Except (List Char) Unit) : InvokeResult × List RecordedEvent :=
  let ev0 : RecordedEvent := (AGENT_RUNTIME_INVOKE_STARTED, none)
  match sched with
  | .ok _ =>
    ({ message := some ("Started processing request for session ".data ++ session_id
        ++ ". Processing will continue in background.".data),
       session_id := session_id, statusF := some "started".data, error := none },
      [ev0, (AGENT_BACKGROUND_TASK_STARTED, none)])
  | .error msg =>
    ({ message := none, session_id := session_id, statusF := none,
       error := some ("Error starting background processing: ".data ++ msg) },
      [ev0, (AGENT_RUNTIME_INVOKE_FAILED, some msg)])

/-- Number of recorded events carrying a given status. -/
def countStatus (evs : List RecordedEvent) (st : List Char) : Nat :=
  (evs.filter fun e => decide (e.1 = st)).length

/-! ## Lemmas about the dynamic status grammar -/

theorem remLit_append (a r : List Char) : remLit a (a ++ r) = some r := by
  induction a with
  | nil => rfl
  | cons c cs ih => simp [remLit, ih]

theorem remLit_eq_append {a l r : List Char} (h : remLit a l = some r) :
    l = a ++ r := by
  induction a generalizing l with
  | nil =>
    simp only [remLit, Option.some.injEq] at h
    simp [h]
  | cons c cs ih =>
    cases l with
    | nil => exact absurd h (by simp [remLit])
    | cons d ds =>
      simp only [remLit] at h
      split at h
      · next heq => simp [heq, ih h]
      · exact absurd h (by simp)

theorem splitTail_append (t p : List Char) : splitTail t (p ++ t) = some p := by
  simp [splitTail, List.reverse_append, remLit_append]

theorem splitTail_started_of_completed (p : List Char) :
    splitTail litSTARTED (p ++ litCOMPLETED) = none := by
  rw [splitTail, List.reverse_append]; rfl

theorem splitTail_completed_of_started (p : List Char) :
    splitTail litCOMPLETED (p ++ litSTARTED) = none := by
  rw [splitTail, List.reverse_append]; rfl

theorem splitTail_failed_of_started (p : List Char) :
    splitTail litFAILED (p ++ litSTARTED) = none := by
  rw [splitTail, List.reverse_append]; rfl

theorem splitTail_started_of_failed (p : List Char) :
    splitTail litSTARTED (p ++ litFAILED) = none := by
  rw [splitTail, List.reverse_append]; rfl

theorem splitTail_failed_of_completed (p : List Char) :
    splitTail litFAILED (p ++ litCOMPLETED) = none := by
  rw [splitTail, List.reverse_append]; rfl

theorem splitTail_completed_of_failed (p : List Char) :
    splitTail litCOMPLETED (p ++ litFAILED) = none := by
  rw [splitTail, List.reverse_append]; rfl

theorem tryCapture_append (t p : List Char) :
    tryCapture t (p ++ t) = if phaseNamePattern p then some p else none := by
  simp [tryCapture, splitTail_append]

theorem dynamicStatusMatch_started (p : List Char) :
    dynamicStatusMatch (litTASK ++ p ++ litSTARTED) =
      if phaseNamePattern p then some p else none := by
  have h1 : remLit litTASK (litTASK ++ p ++ litSTARTED) = some (p ++ litSTARTED) := by
    rw [List.append_assoc]; exact remLit_append _ _
  have h2 : tryCapture litFAILED (p ++ litSTARTED) = none := by
    simp [tryCapture, splitTail_failed_of_started]
  have h3 : tryCapture litCOMPLETED (p ++ litSTARTED) = none := by
    simp [tryCapture, splitTail_completed_of_started]
  rw [dynamicStatusMatch, h1]
  simp only [h2, tryCapture_append, h3]
  by_cases hp : phaseNamePattern p <;> simp [hp]

theorem dynamicStatusMatch_completed (p : List Char) :
    dynamicStatusMatch (litTASK ++ p ++ litCOMPLETED) =
      if phaseNamePattern p then some p else none := by
  have h1 : remLit litTASK (litTASK ++ p ++ litCOMPLETED) = some (p ++ litCOMPLETED) := by
    rw [List.append_assoc]; exact remLit_append _ _
  have h2 : tryCapture litFAILED (p ++ litCOMPLETED) = none := by
    simp [tryCapture, splitTail_failed_of_completed]
  have h3 : tryCapture litSTARTED (p ++ litCOMPLETED) = none := by
    simp [tryCapture, splitTail_started_of_completed]
  rw [dynamicStatusMatch, h1]
  simp only [h2, h3, tryCapture_append]

theorem dynamicStatusMatch_failed (p : List Char) :
    dynamicStatusMatch (litTASK ++ p ++ litFAILED) =
      if phaseNamePattern p then some p else none := by
  have h1 : remLit litTASK (litTASK ++ p ++ litFAILED) = some (p ++ litFAILED) := by
    rw [List.append_assoc]; exact remLit_append _ _
  have h2 : tryCapture litSTARTED (p ++ litFAILED) = none := by
    simp [tryCapture, splitTail_started_of_failed]
  have h3 : tryCapture litCOMPLETED (p ++ litFAILED) = none := by
    simp [tryCapture, splitTail_completed_of_failed]
  rw [dynamicStatusMatch, h1]
  simp only [h2, h3, tryCapture_append]
  by_cases hp : phaseNamePattern p <;> simp [hp]

theorem tryCapture_pattern {t r p : List Char} (h : tryCapture t r = some p) :
    phaseNamePattern p = true := by
  unfold tryCapture at h
  cases hs : splitTail t r with
  | none => rw [hs] at h; cases h
  | some q =>
    rw [hs] at h
    by_cases hq : phaseNamePattern q
    · simp only [hq, if_true] at h
      injection h with h
      subst h; exact hq
    · simp only [hq, if_false] at h
      cases h

theorem dynamicStatusMatch_pattern {s p : List Char}
    (h : dynamicStatusMatch s = some p) : phaseNamePattern p = true := by
  unfold dynamicStatusMatch at h
  cases h0 : remLit litTASK s with
  | none => rw [h0] at h; cases h
  | some r =>
    rw [h0] at h
    dsimp only at h
    cases h1 : tryCapture litFAILED r with
    | some q =>
      rw [h1] at h; dsimp only at h
      injection h with h; subst h; exact tryCapture_pattern h1
    | none =>
      rw [h1] at h; dsimp only at h
      cases h2 : tryCapture litSTARTED r with
      | some q =>
        rw [h2] at h; dsimp only at h
        injection h with h; subst h; exact tryCapture_pattern h2
      | none =>
        rw [h2] at h; dsimp only at h
        exact tryCapture_pattern h

theorem dyn_not_predefined {s p : List Char} (h : dynamicStatusMatch s = some p) :
    RECORD_EVENT_VALID_STATUSES.contains s = false := by
  unfold dynamicStatusMatch at h
  cases h0 : remLit litTASK s with
  | none => rw [h0] at h; cases h
  | some r =>
    have hs : s = litTASK ++ r := remLit_eq_append h0
    subst hs
    by_contra hc
    rw [Bool.not_eq_false, List.contains, List.elem_eq_mem, decide_eq_true_eq] at hc
    simp only [RECORD_EVENT_VALID_STATUSES, List.mem_cons, List.not_mem_nil,
      or_false] at hc
    rcases hc with hc | hc | hc | hc | hc | hc | hc | hc | hc <;>
      simp [litTASK, SESSION_INITIATED, AGENT_INVOCATION_STARTED,
        AGENT_INVOCATION_SUCCEEDED, AGENT_INVOCATION_FAILED,
        AGENT_RUNTIME_INVOKE_STARTED, AGENT_RUNTIME_INVOKE_FAILED,
        AGENT_BACKGROUND_TASK_STARTED, AGENT_BACKGROUND_TASK_COMPLETED,
        AGENT_BACKGROUND_TASK_FAILED] at hc

/-! ## Claims C1, C2, C10: status validation and the event recorder gate -/

/-- C1, counterexample: the status `TASK_DISCOVERY_STARTED` matches the
dynamic grammar and passes `validate_event_status`, yet `record_event`
rejects it with its invalid-status `ValueError` instead of proceeding to the
write — `record_event` never consults the dynamic-status validator. -/
theorem c1_counterexample :
    validate_event_status "TASK_DISCOVERY_STARTED".data RECORD_EVENT_VALID_STATUSES = .ok
    ∧ record_event "s1".data "TASK_DISCOVERY_STARTED".data "tbl".data 90 none 0
        "2025-01-01T00:00:00.000Z".data "e-1".data [] = .error .invalidStatus :=
  ⟨by decide, by rfl⟩

/-- C1 (amended): `record_event` accepts a status if and only if it is one of
the nine predefined `EventStatus` constants; every status matching the
dynamic `TASK_{phase}_{suffix}` grammar is outside that set and is rejected
with a validation error before any write is attempted. -/
theorem record_event_accepts_only_predefined (sid st tbl ts eid : List Char)
    (d n : Nat) (em : Option (List Char)) (table : DynamoTable EventItem)
    (hsid : sid.isEmpty = false) (htbl : tbl.isEmpty = false) :
    (record_event sid st tbl d em n ts eid table = .error .invalidStatus
      ↔ RECORD_EVENT_VALID_STATUSES.contains st = false)
    ∧ ∀ p, dynamicStatusMatch st = some p →
        record_event sid st tbl d em n ts eid table = .error .invalidStatus := by
  have hgate : record_event sid st tbl d em n ts eid table = .error .invalidStatus
      ↔ RECORD_EVENT_VALID_STATUSES.contains st = false := by
    unfold record_event
    cases hc : RECORD_EVENT_VALID_STATUSES.contains st
    · simp [hsid, htbl, hc]
    · simp only [hsid, htbl, hc, Bool.not_true, Bool.false_eq_true, if_false]
      cases hcp : condPut table ("SESSION#".data ++ sid,
          "EVENT#".data ++ ts ++ ['#'] ++ eid)
          { PK := "SESSION#".data ++ sid,
            SK := "EVENT#".data ++ ts ++ ['#'] ++ eid,
            sessionId := sid, eventId := eid, createdAt := ts, statusF := st,
            ttlSeconds := n + d * 24 * 60 * 60, errorMessage := em } <;>
        simp [hcp]
  exact ⟨hgate, fun _ hp => hgate.mpr (dyn_not_predefined hp)⟩

/-- C1, witness for the amended theorem at a concrete dynamic status. -/
theorem c1_witness :
    record_event "s".data "TASK_X_STARTED".data "t".data 90 none 0 "ts".data
      "e1".data [] = .error .invalidStatus :=
  (record_event_accepts_only_predefined "s".data "TASK_X_STARTED".data "t".data
    "ts".data "e1".data 90 0 none [] (by rfl) (by rfl)).2 "X".data (by decide)

/-- C2, counterexample: the claim admits the suffixes CANCELLED and SKIPPED,
but `DYNAMIC_STATUS_PATTERN` only has STARTED, COMPLETED and FAILED, so
`validate_event_status` raises its pattern-mismatch `ValueError` on
`TASK_A_CANCELLED` and `TASK_A_SKIPPED` instead of accepting them. -/
theorem c2_counterexample :
    validate_event_status "TASK_A_CANCELLED".data RECORD_EVENT_VALID_STATUSES
      = .errPattern
    ∧ validate_event_status "TASK_A_SKIPPED".data RECORD_EVENT_VALID_STATUSES
      = .errPattern :=
  ⟨by decide, by decide⟩

/-- C2 (amended): for the three-suffix grammar STARTED/COMPLETED/FAILED,
`validate_event_status` accepts every `TASK_{phase}_{suffix}` whose phase is
1 to 50 characters from `[A-Za-z0-9_-]`; a phase of 51 or more safe
characters raises the maximum-length error, and a phase containing any
character outside the class raises the pattern-mismatch error (both
descriptive `ValueError`s), provided the string is not itself a predefined
status. -/
theorem validate_event_status_grammar (p suf : List Char)
    (predef : List (List Char))
    (hsuf : suf = litSTARTED ∨ suf = litCOMPLETED ∨ suf = litFAILED) :
    (1 ≤ p.length → p.length ≤ 50 → p.all isSafeChar = true →
      validate_event_status (litTASK ++ p ++ suf) predef = .ok)
    ∧ (50 < p.length → p.all isSafeChar = true →
        predef.contains (litTASK ++ p ++ suf) = false →
        validate_event_status (litTASK ++ p ++ suf) predef = .errTooLong)
    ∧ (p.all isSafeChar = false →
        predef.contains (litTASK ++ p ++ suf) = false →
        validate_event_status (litTASK ++ p ++ suf) predef = .errPattern) := by
  have hdyn : dynamicStatusMatch (litTASK ++ p ++ suf) =
      if phaseNamePattern p then some p else none := by
    rcases hsuf with rfl | rfl | rfl
    · exact dynamicStatusMatch_started p
    · exact dynamicStatusMatch_completed p
    · exact dynamicStatusMatch_failed p
  refine ⟨fun h1 h2 h3 => ?_, fun h1 h2 h3 => ?_, fun h1 h2 => ?_⟩
  · have hne : p ≠ [] := by
      intro e; subst e; simp at h1
    have hp : phaseNamePattern p = true := by
      simp [phaseNamePattern, h3, hne]
    have hlen : ¬(p.length > MAX_PHASE_NAME_LENGTH) := by
      simp only [MAX_PHASE_NAME_LENGTH]; omega
    unfold validate_event_status
    cases hc : predef.contains (litTASK ++ p ++ suf)
    · simp [hc, hdyn, hp, hlen, -List.append_assoc]
    · simp [hc, -List.append_assoc]
  · have hne : p ≠ [] := by
      intro e; subst e; simp at h1
    have hp : phaseNamePattern p = true := by
      simp [phaseNamePattern, h2, hne]
    have hlen : p.length > MAX_PHASE_NAME_LENGTH := by
      simp only [MAX_PHASE_NAME_LENGTH]; omega
    unfold validate_event_status
    simp [h3, hdyn, hp, hlen, -List.append_assoc]
    rw [List.contains, List.elem_eq_mem, decide_eq_false_iff_not] at h3
    exact h3
  · have hp : phaseNamePattern p = false := by
      simp [phaseNamePattern, h1]
    unfold validate_event_status
    simp [h2, hdyn, hp, -List.append_assoc]
    rw [List.contains, List.elem_eq_mem, decide_eq_false_iff_not] at h2
    exact h2

/-- C2, witness for the amended theorem: a well-formed dynamic status is
accepted, an over-long phase raises the length error, a phase with a space
raises the pattern error. -/
theorem c2_witness :
    validate_event_status (litTASK ++ "DISCOVERY".data ++ litSTARTED)
      RECORD_EVENT_VALID_STATUSES = .ok
    ∧ validate_event_status
        (litTASK ++ "ABCDEFGHIJABCDEFGHIJABCDEFGHIJABCDEFGHIJABCDEFGHIJX".data
          ++ litFAILED) RECORD_EVENT_VALID_STATUSES = .errTooLong
    ∧ validate_event_status (litTASK ++ "BAD PHASE".data ++ litCOMPLETED)
        RECORD_EVENT_VALID_STATUSES = .errPattern :=
  ⟨(validate_event_status_grammar "DISCOVERY".data litSTARTED
      RECORD_EVENT_VALID_STATUSES (Or.inl rfl)).1 (by decide) (by decide) (by decide),
   (validate_event_status_grammar
      "ABCDEFGHIJABCDEFGHIJABCDEFGHIJABCDEFGHIJABCDEFGHIJX".data litFAILED
      RECORD_EVENT_VALID_STATUSES (Or.inr (Or.inr rfl))).2.1
      (by decide) (by decide) (by decide),
   (validate_event_status_grammar "BAD PHASE".data litCOMPLETED
      RECORD_EVENT_VALID_STATUSES (Or.inr (Or.inl rfl))).2.2
      (by decide) (by decide)⟩

/-- C10: every phase name extracted by `DYNAMIC_STATUS_PATTERN` satisfies
`PHASE_NAME_PATTERN`, so the invalid-characters branch of
`validate_event_status` is unreachable: the function returns normally or
raises only the pattern-mismatch or maximum-length error. -/
theorem validate_event_status_reachable_outcomes (s : List Char)
    (predef : List (List Char)) (p : List Char) :
    (dynamicStatusMatch s = some p → phaseNamePattern p = true)
    ∧ validate_event_status s predef ∈
        [ValidationOutcome.ok, .errPattern, .errTooLong] := by
  refine ⟨fun h => dynamicStatusMatch_pattern h, ?_⟩
  unfold validate_event_status
  cases hc : predef.contains s
  · cases hd : dynamicStatusMatch s with
    | none => simp [hc, hd]
    | some q =>
      have hq : phaseNamePattern q = true := dynamicStatusMatch_pattern hd
      by_cases hl : q.length > MAX_PHASE_NAME_LENGTH
      · simp [hc, hd, hl]
      · simp [hc, hd, hl, hq]
  · simp [hc]

/-- C10, witness at a concrete dynamic status. -/
theorem c10_witness :
    phaseNamePattern "PHASE-1".data = true
    ∧ validate_event_status "TASK_PHASE-1_FAILED".data [] ∈
        [ValidationOutcome.ok, .errPattern, .errTooLong] :=
  ⟨(validate_event_status_reachable_outcomes "TASK_PHASE-1_FAILED".data []
      "PHASE-1".data).1 (by decide),
   (validate_event_status_reachable_outcomes "TASK_PHASE-1_FAILED".data []
      "PHASE-1".data).2⟩

/-! ## Claims C3, C7: store-level write disciplines -/

theorem countKey_eq_zero_of_hasKey_false {α : Type} {t : DynamoTable α}
    {k : DynamoKey} (h : hasKey t k = false) : countKey t k = 0 := by
  simp only [hasKey, List.any_eq_false, decide_eq_true_eq] at h
  simp only [countKey, List.length_eq_zero, List.filter_eq_nil_iff]
  intro a ha
  simpa using h a ha

/-- C3: two `record_event` writes that produce the same composite key cannot
both land: if the first one succeeded, a second validated call generating the
identical `SESSION#…` partition key and `EVENT#…` sort key is rejected by the
conditional check (`storeError`), and the store holds exactly one event under
that key. -/
theorem record_event_duplicate_key_rejected
    (sid₁ st₁ tbl₁ ts₁ eid₁ sid₂ st₂ tbl₂ ts₂ eid₂ : List Char)
    (d₁ n₁ d₂ n₂ : Nat) (em₁ em₂ : Option (List Char))
    (table t₁ : DynamoTable EventItem)
    (h1 : record_event sid₁ st₁ tbl₁ d₁ em₁ n₁ ts₁ eid₁ table = .ok t₁)
    (hpk : "SESSION#".data ++ sid₂ = "SESSION#".data ++ sid₁)
    (hsk : "EVENT#".data ++ ts₂ ++ ['#'] ++ eid₂
      = "EVENT#".data ++ ts₁ ++ ['#'] ++ eid₁)
    (hsid : sid₂.isEmpty = false) (htbl : tbl₂.isEmpty = false)
    (hst : RECORD_EVENT_VALID_STATUSES.contains st₂ = true) :
    record_event sid₂ st₂ tbl₂ d₂ em₂ n₂ ts₂ eid₂ t₁ = .error .storeError
    ∧ countKey t₁
        ("SESSION#".data ++ sid₁, "EVENT#".data ++ ts₁ ++ ['#'] ++ eid₁) = 1 := by
  unfold record_event at h1
  split at h1
  · exact absurd h1 (by simp)
  · split at h1
    · exact absurd h1 (by simp)
    · split at h1
      · exact absurd h1 (by simp)
      · dsimp only at h1
        split at h1
        · exact absurd h1 (by simp)
        · next t heq =>
          injection h1 with h1
          subst h1
          unfold condPut at heq
          split at heq
          · exact absurd heq (by simp)
          · next hkey =>
            injection heq with heq
            rw [Bool.not_eq_true] at hkey
            subst heq
            constructor
            · unfold record_event
              rw [hpk, hsk]
              simp [hsid, htbl, hst, condPut, hasKey]
              rw [List.contains, List.elem_eq_mem, decide_eq_true_eq] at hst
              exact hst
            · have h0 := countKey_eq_zero_of_hasKey_false hkey
              simp only [countKey, List.filter_cons, decide_eq_true_eq] at h0 ⊢
              simp only [if_true, List.length_cons]
              omega

/-- The event written by the first `record_event` call of the C3 witness. -/
def c3Item : EventItem :=
  { PK := "SESSION#s".data, SK := "EVENT#T0#e0".data,
    sessionId := "s".data, eventId := "e0".data, createdAt := "T0".data,
    statusF := SESSION_INITIATED, ttlSeconds := 7776000, errorMessage := none }

/-- The store after the first `record_event` call of the C3 witness. -/
def c3Table : DynamoTable EventItem :=
  [(("SESSION#s".data, "EVENT#T0#e0".data), c3Item)]

/-- C3, witness: a concrete duplicate write against a one-event store. -/
theorem c3_witness :
    record_event "s".data SESSION_INITIATED "t".data 90 none 0 "T0".data
        "e0".data c3Table = .error .storeError
    ∧ countKey c3Table
        ("SESSION#".data ++ "s".data,
          "EVENT#".data ++ "T0".data ++ ['#'] ++ "e0".data) = 1 :=
  record_event_duplicate_key_rejected "s".data SESSION_INITIATED "t".data
    "T0".data "e0".data "s".data SESSION_INITIATED "t".data "T0".data "e0".data
    90 0 90 0 none none [] c3Table (by rfl) rfl rfl (by rfl) (by rfl) (by decide)

theorem countKey_plainPut {α : Type} (t : DynamoTable α) (k : DynamoKey)
    (it : α) : countKey (plainPut t k it) k = 1 := by
  have hnil : (List.filter (fun e => decide (e.1 = k))
      (List.filter (fun e => !decide (e.1 = k)) t)) = [] := by
    apply List.filter_eq_nil_iff.mpr
    intro a ha
    have h2 := (List.mem_filter.mp ha).2
    simp only [Bool.not_eq_true'] at h2
    simp [h2]
  simp [countKey, plainPut, List.filter_cons, hnil]

/-- The metadata record written at timestamp T1 in the C7 scenarios. -/
def c7ItemT1 : MetadataItem :=
  { PK := "SESSION#s1".data, SK := "METADATA#T1".data,
    sessionId := "s1".data, createdAt := "T1".data, ttlSeconds := 7776000 }

/-- The metadata record written at timestamp T2 in the C7 counterexample. -/
def c7ItemT2 : MetadataItem :=
  { PK := "SESSION#s1".data, SK := "METADATA#T2".data,
    sessionId := "s1".data, createdAt := "T2".data, ttlSeconds := 7776000 }

/-- C7, counterexample: two `record_metadata` calls for the same session at
distinct timestamps append two distinct records (the sort key embeds the
timestamp), so after the second call the session owns two metadata records —
refuting "at most one logical metadata record … last write wins". -/
theorem c7_counterexample :
    record_metadata "s1".data "tbl".data 90 0 "T1".data [] = .ok
      [(("SESSION#s1".data, "METADATA#T1".data), c7ItemT1)]
    ∧ record_metadata "s1".data "tbl".data 90 0 "T2".data
        [(("SESSION#s1".data, "METADATA#T1".data), c7ItemT1)] = .ok
      [(("SESSION#s1".data, "METADATA#T2".data), c7ItemT2),
       (("SESSION#s1".data, "METADATA#T1".data), c7ItemT1)]
    ∧ countPK
        [(("SESSION#s1".data, "METADATA#T2".data), c7ItemT2),
         (("SESSION#s1".data, "METADATA#T1".data), c7ItemT1)]
        "SESSION#s1".data = 2 :=
  ⟨by rfl, by rfl, by rfl⟩

/-- C7 (amended): `record_metadata` writes unconditionally under the key
`(SESSION#session_id, METADATA#timestamp)`.  Two writes sharing the same
timestamp overwrite — afterwards exactly one record exists under that key,
and it is the second write's record (last write wins) — but writes at
distinct timestamps target distinct keys and accumulate, so a session can
hold several metadata records (see the counterexample). -/
theorem record_metadata_same_timestamp_overwrites
    (sid tbl ts : List Char) (d₁ d₂ n₁ n₂ : Nat)
    (t0 t1 t2 : DynamoTable MetadataItem)
    (_h1 : record_metadata sid tbl d₁ n₁ ts t0 = .ok t1)
    (h2 : record_metadata sid tbl d₂ n₂ ts t1 = .ok t2) :
    countKey t2 ("SESSION#".data ++ sid, "METADATA#".data ++ ts) = 1
    ∧ t2.head? = some (("SESSION#".data ++ sid, "METADATA#".data ++ ts),
        { PK := "SESSION#".data ++ sid, SK := "METADATA#".data ++ ts,
          sessionId := sid, createdAt := ts,
          ttlSeconds := n₂ + d₂ * 24 * 60 * 60 }) := by
  unfold record_metadata at h2
  split at h2
  · exact absurd h2 (by simp)
  · split at h2
    · exact absurd h2 (by simp)
    · injection h2 with h2
      subst h2
      exact ⟨countKey_plainPut _ _ _, rfl⟩

/-- C7, witness: a concrete same-timestamp double write ends with one record
under the shared key. -/
theorem c7_witness :
    countKey
        [(("SESSION#".data ++ "s1".data, "METADATA#".data ++ "T1".data),
          ({ PK := "SESSION#".data ++ "s1".data,
             SK := "METADATA#".data ++ "T1".data,
             sessionId := "s1".data, createdAt := "T1".data,
             ttlSeconds := 0 + 90 * 24 * 60 * 60 } : MetadataItem))]
        ("SESSION#".data ++ "s1".data, "METADATA#".data ++ "T1".data) = 1
    ∧ List.head?
        [(("SESSION#".data ++ "s1".data, "METADATA#".data ++ "T1".data),
          ({ PK := "SESSION#".data ++ "s1".data,
             SK := "METADATA#".data ++ "T1".data,
             sessionId := "s1".data, createdAt := "T1".data,
             ttlSeconds := 0 + 90 * 24 * 60 * 60 } : MetadataItem))]
      = some (("SESSION#".data ++ "s1".data, "METADATA#".data ++ "T1".data),
        { PK := "SESSION#".data ++ "s1".data,
          SK := "METADATA#".data ++ "T1".data,
          sessionId := "s1".data, createdAt := "T1".data,
          ttlSeconds := 0 + 90 * 24 * 60 * 60 }) :=
  record_metadata_same_timestamp_overwrites "s1".data "tbl".data "T1".data
    90 90 0 0 [] _ _ (by rfl) (by rfl)

/-! ## Claims C4, C5, C9: the journal tool -/

/-- A duration oracle used by the concrete journal scenarios. -/
def zeroDur : List Char → Int := fun _ => 0

/-- C4: the claim says the `journal` tool returns a `{success, …, timestamp}`
dictionary on every input and never raises; but for
`action="complete_task"` with the unrecognized status `INVALID_STATUS`,
`TaskStatus(status)` is evaluated outside every `try` block and its
`ValueError` escapes to the caller.  The repository's own test
(`test_journal.py::test_invalid_status`) expects a structured error
dictionary here, so the code contradicts its tests: this is evaluated at the
failing input. -/
theorem journal_invalid_status_raises :
    (journal "complete_task".data (some "Discovery".data)
        (some "INVALID_STATUS".data) none (some "test-session-123".data)
        ⟨none, none, []⟩ [] "tbl".data "T".data 0 zeroDur (.ok ()) (.ok ())).1
      = .raisesValueError "INVALID_STATUS".data := by rfl

theorem lookupAssoc_insertAssoc (l : List (List Char × CacheTaskInfo))
    (k : List Char) (v : CacheTaskInfo) :
    lookupAssoc (insertAssoc l k v) k = some v := by
  simp [lookupAssoc, insertAssoc]

/-- C5: completing a phase that was never started in the session — no cache
entry and no stored task row — always returns the structured
`TASK_NOT_FOUND` error carrying both the phase name and the session id, and
never a fabricated success. -/
theorem complete_task_unstarted_phase
    (phase sid tbl now : List Char) (status : TaskStatus)
    (em : Option (List Char)) (cache : SessionCache) (store : List JournalItem)
    (calcDur : List Char → Int) (updOut : Except (List Char × List Char) Unit)
    (hphase : phase.isEmpty = false) (hsid : sid.isEmpty = false)
    (hcache : lookupAssoc cache.tasks phase = none)
    (hstore : findTaskByPhase store tbl sid phase = none) :
    (completeTask phase (some sid) status em cache store tbl now calcDur updOut).1.success
        = false
    ∧ (completeTask phase (some sid) status em cache store tbl now calcDur updOut).1.error_type
        = some .TASK_NOT_FOUND
    ∧ (completeTask phase (some sid) status em cache store tbl now calcDur updOut).1.phase_name
        = some phase
    ∧ (completeTask phase (some sid) status em cache store tbl now calcDur updOut).1.session_id
        = some sid := by
  unfold completeTask
  simp [hphase, getSessionId, hsid, isFalsy, hcache, hstore, errorResponse]

/-- C5, witness: a fresh session cache and empty store. -/
theorem c5_witness :
    (completeTask "Discovery".data (some "s1".data) .COMPLETED none
        ⟨none, none, []⟩ [] "tbl".data "T".data zeroDur (.ok ())).1.success = false
    ∧ (completeTask "Discovery".data (some "s1".data) .COMPLETED none
        ⟨none, none, []⟩ [] "tbl".data "T".data zeroDur (.ok ())).1.error_type
        = some .TASK_NOT_FOUND
    ∧ (completeTask "Discovery".data (some "s1".data) .COMPLETED none
        ⟨none, none, []⟩ [] "tbl".data "T".data zeroDur (.ok ())).1.phase_name
        = some "Discovery".data
    ∧ (completeTask "Discovery".data (some "s1".data) .COMPLETED none
        ⟨none, none, []⟩ [] "tbl".data "T".data zeroDur (.ok ())).1.session_id
        = some "s1".data :=
  complete_task_unstarted_phase "Discovery".data "s1".data "tbl".data "T".data
    .COMPLETED none ⟨none, none, []⟩ [] zeroDur (.ok ())
    (by rfl) (by rfl) (by rfl) (by rfl)

/-- C9: `_start_task` writes the cache entry for the phase before attempting
the store write and keeps it when the `put_item` fails with a `ClientError`:
the call reports failure and leaves the store unchanged, yet the phase is in
the cache with the session id, so a later `_complete_task` for the phase in
the same process does not return `TASK_NOT_FOUND`. -/
theorem start_task_failure_keeps_cache
    (phase sid tbl now now₂ code msg : List Char) (nE : Nat)
    (cache : SessionCache) (store : List JournalItem) (status : TaskStatus)
    (em : Option (List Char)) (calcDur : List Char → Int)
    (updOut : Except (List Char × List Char) Unit)
    (hphase : phase.isEmpty = false) (hsid : sid.isEmpty = false)
    (htbl : tbl.isEmpty = false) :
    (startTask phase (some sid) cache store tbl now nE (.error (code, msg))).1.success
        = false
    ∧ lookupAssoc
        (startTask phase (some sid) cache store tbl now nE (.error (code, msg))).2.1.tasks
        phase = some ⟨"TASK#".data ++ now, now, sid⟩
    ∧ (startTask phase (some sid) cache store tbl now nE (.error (code, msg))).2.2
        = store
    ∧ (completeTask phase (some sid) status em
        (startTask phase (some sid) cache store tbl now nE (.error (code, msg))).2.1
        store tbl now₂ calcDur updOut).1.error_type ≠ some .TASK_NOT_FOUND := by
  have hout : (startTask phase (some sid) cache store tbl now nE
      (.error (code, msg))).2.1
      = { cache with
          tasks := insertAssoc cache.tasks phase ⟨"TASK#".data ++ now, now, sid⟩ } := by
    unfold startTask
    simp [hphase, getSessionId, hsid, isFalsy, htbl]
  refine ⟨?_, ?_, ?_, ?_⟩
  · unfold startTask
    simp [hphase, getSessionId, hsid, isFalsy, htbl, dynamoError, errorResponse]
  · rw [hout]
    exact lookupAssoc_insertAssoc _ _ _
  · unfold startTask
    simp [hphase, getSessionId, hsid, isFalsy, htbl]
  · rw [hout]
    unfold completeTask
    simp only [hphase, Bool.false_eq_true, if_false, getSessionId, hsid,
      isFalsy, lookupAssoc_insertAssoc, Option.getD_some]
    simp [htbl]
    cases updOut with
    | error e =>
      rcases e with ⟨c2, m2⟩
      simp [dynamoError, errorResponse]
    | ok u => simp

/-- C9, witness: concrete failed start then completion attempt. -/
theorem c9_witness :
    (startTask "Discovery".data (some "s1".data) ⟨none, none, []⟩ []
        "tbl".data "T".data 0 (.error ("Throttling".data, "slow down".data))).1.success
      = false
    ∧ lookupAssoc
        (startTask "Discovery".data (some "s1".data) ⟨none, none, []⟩ []
          "tbl".data "T".data 0
          (.error ("Throttling".data, "slow down".data))).2.1.tasks
        "Discovery".data
      = some ⟨"TASK#".data ++ "T".data, "T".data, "s1".data⟩
    ∧ (startTask "Discovery".data (some "s1".data) ⟨none, none, []⟩ []
        "tbl".data "T".data 0 (.error ("Throttling".data, "slow down".data))).2.2
      = []
    ∧ (completeTask "Discovery".data (some "s1".data) .COMPLETED none
        (startTask "Discovery".data (some "s1".data) ⟨none, none, []⟩ []
          "tbl".data "T".data 0
          (.error ("Throttling".data, "slow down".data))).2.1
        [] "tbl".data "T2".data zeroDur (.ok ())).1.error_type
      ≠ some .TASK_NOT_FOUND :=
  start_task_failure_keeps_cache "Discovery".data "s1".data "tbl".data
    "T".data "T2".data "Throttling".data "slow down".data 0 ⟨none, none, []⟩
    [] .COMPLETED none zeroDur (.ok ()) (by rfl) (by rfl) (by rfl)

/-! ## Claims C6, C8: background orchestrator and dispatcher -/

theorem sepHead_cons_false (a : Char) (l : List Char) (h : (a == ' ') = false) :
    sepHead (a :: l) = false := by
  unfold sepHead
  cases l with
  | nil => rfl
  | cons b t =>
    cases t with
    | nil => rfl
    | cons c u => simp [h]

theorem splitAfterSep_cons_sep (code msg : List Char)
    (h : code.all (fun c => !(c == ' ')) = true) :
    splitAfterSep (code ++ ' ' :: '-' :: ' ' :: msg) = some msg := by
  induction code with
  | nil =>
    simp only [List.nil_append]
    simp [splitAfterSep, sepHead]
  | cons a cs ih =>
    simp only [List.all_cons, Bool.and_eq_true] at h
    obtain ⟨ha, hcs⟩ := h
    rw [Bool.not_eq_true'] at ha
    rw [List.cons_append, splitAfterSep, sepHead_cons_false a _ ha]
    simp only [Bool.false_eq_true, if_false]
    exact ih hcs

/-- C6: each failure of an agent stage — credentials absent, provider client
error, or a generic exception, raised by either the analysis or the report
stage — makes `background_task` record exactly one
`AGENT_BACKGROUND_TASK_FAILED` event (the recorded-event trace is a
singleton) and return a structured result whose `error` field is the class
name (`NoCredentialsError`, `ClientError`, `Exception`) with the originating
message preserved in `error_message`.  The error-code hypotheses say the
`ClientError` code and the exception type name contain no space, as Python
class names and AWS error codes do. -/
theorem background_task_failure_classification
    (sid m code msg tname gmsg : List Char) (s₂ : StageOutcome)
    (hcode : code.all (fun c => !(c == ' ')) = true)
    (htname : tname.all (fun c => !(c == ' ')) = true) :
    background_task sid (.noCredentials m) s₂ =
      (.failure { error := "NoCredentialsError".data, session_id := sid,
                  statusF := "failed".data,
                  error_code := some "NoCredentialsError".data,
                  error_typeF := none,
                  error_messageF := "NoCredentialsError - ".data ++ m },
       [(AGENT_BACKGROUND_TASK_FAILED, some ("NoCredentialsError - ".data ++ m))])
    ∧ background_task sid .success (.noCredentials m) =
      (.failure { error := "NoCredentialsError".data, session_id := sid,
                  statusF := "failed".data,
                  error_code := some "NoCredentialsError".data,
                  error_typeF := none,
                  error_messageF := "NoCredentialsError - ".data ++ m },
       [(AGENT_BACKGROUND_TASK_FAILED, some ("NoCredentialsError - ".data ++ m))])
    ∧ background_task sid (.clientError code msg) s₂ =
      (.failure { error := "ClientError".data, session_id := sid,
                  statusF := "failed".data,
                  error_code := if code.isEmpty then none else some code,
                  error_typeF := none,
                  error_messageF := msg },
       [(AGENT_BACKGROUND_TASK_FAILED, some (code ++ " - ".data ++ msg))])
    ∧ background_task sid .success (.clientError code msg) =
      (.failure { error := "ClientError".data, session_id := sid,
                  statusF := "failed".data,
                  error_code := if code.isEmpty then none else some code,
                  error_typeF := none,
                  error_messageF := msg },
       [(AGENT_BACKGROUND_TASK_FAILED, some (code ++ " - ".data ++ msg))])
    ∧ background_task sid (.generic tname gmsg) s₂ =
      (.failure { error := "Exception".data, session_id := sid,
                  statusF := "failed".data,
                  error_code := none,
                  error_typeF := if tname.isEmpty then none else some tname,
                  error_messageF := gmsg },
       [(AGENT_BACKGROUND_TASK_FAILED, some (tname ++ " - ".data ++ gmsg))])
    ∧ background_task sid .success (.generic tname gmsg) =
      (.failure { error := "Exception".data, session_id := sid,
                  statusF := "failed".data,
                  error_code := none,
                  error_typeF := if tname.isEmpty then none else some tname,
                  error_messageF := gmsg },
       [(AGENT_BACKGROUND_TASK_FAILED, some (tname ++ " - ".data ++ gmsg))]) := by
  refine ⟨rfl, rfl, ?_, ?_, ?_, ?_⟩ <;>
    simp [background_task, handleBackgroundTaskError, isFalsy,
      splitAfterSep_cons_sep code msg hcode,
      splitAfterSep_cons_sep tname gmsg htname, List.isEmpty_iff]

/-- C6, witness: a throttling client error from the first stage. -/
theorem c6_witness :
    background_task "s1".data
        (.clientError "ThrottlingException".data "Rate exceeded".data) .success =
      (.failure { error := "ClientError".data, session_id := "s1".data,
                  statusF := "failed".data,
                  error_code := if "ThrottlingException".data.isEmpty then none
                    else some "ThrottlingException".data,
                  error_typeF := none,
                  error_messageF := "Rate exceeded".data },
       [(AGENT_BACKGROUND_TASK_FAILED,
         some ("ThrottlingException".data ++ " - ".data ++ "Rate exceeded".data))]) :=
  (background_task_failure_classification "s1".data "x".data
    "ThrottlingException".data "Rate exceeded".data "RuntimeError".data
    "boom".data .success (by decide) (by decide)).2.2.1

/-- C8: when the scheduling of the background task raises, `invoke` returns
`{error: "Error starting background processing: <message>", session_id}`,
records an `AGENT_RUNTIME_INVOKE_FAILED` event and no
`AGENT_BACKGROUND_TASK_STARTED` event; when scheduling succeeds it returns
`{message, session_id, status: "started"}` — in either case the result is a
function of the scheduling outcome alone, never of the pipeline's result,
which is the fire-and-forget contract. -/
theorem invoke_scheduling_contract (p : Option (List Char)) (sid m : List Char) :
    invoke p sid (.error m) =
      ({ message := none, session_id := sid, statusF := none,
         error := some ("Error starting background processing: ".data ++ m) },
        [(AGENT_RUNTIME_INVOKE_STARTED, none),
         (AGENT_RUNTIME_INVOKE_FAILED, some m)])
    ∧ countStatus (invoke p sid (.error m)).2 AGENT_BACKGROUND_TASK_STARTED = 0
    ∧ countStatus (invoke p sid (.error m)).2 AGENT_RUNTIME_INVOKE_FAILED = 1
    ∧ invoke p sid (.ok ()) =
      ({ message := some ("Started processing request for session ".data ++ sid
          ++ ". Processing will continue in background.".data),
         session_id := sid, statusF := some "started".data, error := none },
        [(AGENT_RUNTIME_INVOKE_STARTED, none),
         (AGENT_BACKGROUND_TASK_STARTED, none)]) := by
  refine ⟨rfl, ?_, ?_, rfl⟩ <;> rfl

end CostOpt
